import Mathlib

/-!
Verification of the AmLI chat bot (bot.py): a shallow embedding of the
intent classifier, the conversation-history window, the chat router, the
generation-client retry loop and the Supabase document-search client,
together with theorems settling the specification claims.

Conventions of the embedding:
* Python strings are Lean `String`s; helper functions (`pyStrip`, `pyLower`,
  `strContains`, `wordCount`, `findEnrollment`) are written over `List Char`
  so that concrete instances evaluate by `decide`.  They model the ASCII
  behaviour of `str.strip`, `str.lower`, the `in` operator, `str.split` and
  the regex search used by the code; the claims only exercise ASCII inputs.
* `datetime.now().isoformat()` is modelled by a timestamp parameter `ts`
  threaded through each request.
* The remote generation service (`model.generate_content`) is modelled by a
  stub `Nat → Except String ModelResponse` giving, per attempt, either the
  raised exception message or the returned response object.  Prompt
  construction (`generate_context_prompt`) feeds only that remote call and
  is abstracted away; no claim concerns the prompt text.
* The single HTTP POST of the document search is modelled by an `HttpResult`
  oracle; each searching branch of the embedding also reports how many
  requests it issued, so "no retries"/"no network call" become provable.
* `conversation_history[session_id]` is modelled as the one session's list
  of turns: a request reads and writes only its own session key.
-/

namespace AmLI

/-- Characters of a Lean string. -/
def chars (s : String) : List Char := s.data

/-- `p.isPrefixL l` : `p` is a prefix of `l` (Boolean, by character equality). -/
def isPrefixL : List Char → List Char → Bool
  | [], _ => true
  | _ :: _, [] => false
  | a :: as, b :: bs => a == b && isPrefixL as bs

/-- `containsL pat l` : `pat` occurs as a contiguous sublist of `l`.
Models the Python `in` operator on strings. -/
def containsL (pat : List Char) : List Char → Bool
  | [] => isPrefixL pat []
  | c :: rest => isPrefixL pat (c :: rest) || containsL pat rest

/-- `strContains hay pat` models Python `pat in hay`. -/
def strContains (hay pat : String) : Bool :=
  containsL (chars pat) (chars hay)

/-- Python `str.lower()` (ASCII). -/
def pyLower (s : String) : String :=
  String.mk ((chars s).map Char.toLower)

/-- Python `str.strip()`: drop leading and trailing whitespace. -/
def pyStrip (s : String) : String :=
  String.mk ((((chars s).dropWhile Char.isWhitespace).reverse.dropWhile
    Char.isWhitespace).reverse)

/-- Helper for `wordCount`: counts words in a character list, tracking
whether the previous character was inside a word. -/
def wordsAux : Bool → List Char → Nat
  | _, [] => 0
  | inw, c :: rest =>
    if c.isWhitespace then wordsAux false rest
    else (if inw then 0 else 1) + wordsAux true rest

/-- `len(message.split())` in Python: number of maximal non-whitespace runs. -/
def wordCount (s : String) : Nat := wordsAux false (chars s)

/-- A regex word character (`\w`, restricted to ASCII): letter, digit or
underscore. -/
def isWordChar (c : Char) : Bool := c.isAlphanum || c == '_'

/-- If the list starts with exactly six digits followed by a word boundary,
return those six digits.  Part of the model of `re.search(r'\b\d{6}\b', m)`. -/
def sixDigitAt (l : List Char) : Option String :=
  let six := l.take 6
  if six.length == 6 && six.all Char.isDigit then
    match l.drop 6 with
    | [] => some (String.mk six)
    | c :: _ => if isWordChar c then none else some (String.mk six)
  else none

/-- Scan for the leftmost `\b\d{6}\b` match; the Boolean records whether the
previous character was a word character (so no boundary exists here). -/
def findSixAux : Bool → List Char → Option String
  | _, [] => none
  | prevW, c :: rest =>
    if prevW then findSixAux (isWordChar c) rest
    else
      match sixDigitAt (c :: rest) with
      | some six => some six
      | none => findSixAux (isWordChar c) rest

/-- `re.search(r'\b\d{6}\b', message)`: the first run of exactly six digits
delimited by word boundaries, if any. -/
def findEnrollment (message : String) : Option String :=
  findSixAux false (chars message)

/-! ### Intent classifier (`AmLIExpert.analyze_user_intent`) -/

/-- Keywords of the `job_application` intent (bot.py line 155). -/
def jobKeywords : List String :=
  ["job", "internship", "apply", "application", "position", "career", "work"]

/-- Keywords of the `certificate_search` intent (line 156). -/
def certKeywords : List String :=
  ["certificate", "document", "offer letter", "enrollment", "password", "search"]

/-- Keywords of the `general_info` intent (line 157). -/
def infoKeywords : List String :=
  ["what is", "tell me about", "information", "help", "service"]

/-- Keywords of the `file_analysis` intent (line 158). -/
def fileKeywords : List String :=
  ["analyze", "review", "check", "examine", "look at"]

/-- Keywords of the `support` intent (line 159). -/
def supportKeywords : List String :=
  ["help", "support", "assist", "problem", "issue"]

/-- `any(word in message_lower for word in kws)`. -/
def anyKeyword (messageLower : String) (kws : List String) : Bool :=
  kws.any (fun w => strContains messageLower w)

/-- `max(intents.items(), key=lambda x: x[1])[0] if any(intents.values())
else 'general'`: Python's `max` is stable, so with Boolean values it returns
the first `True` key in dict insertion order, and the guard yields
`'general'` when no intent matched. -/
def primaryIntent (j c g f s : Bool) : String :=
  if j then "job_application"
  else if c then "certificate_search"
  else if g then "general_info"
  else if f then "file_analysis"
  else if s then "support"
  else "general"

/-- `intents.get(primary_intent, 0)`: look the chosen label back up in the
intents dict (`'general'` is not a key, so it yields the default, falsy). -/
def intentsLookup (j c g f s : Bool) (key : String) : Bool :=
  if key = "job_application" then j
  else if key = "certificate_search" then c
  else if key = "general_info" then g
  else if key = "file_analysis" then f
  else if key = "support" then s
  else false

/-- Result of `analyze_user_intent` (bot.py lines 148-174). -/
structure IntentAnalysis where
  primary_intent : String
  confidence : Bool
  enrollment_no : Option String
  requires_clarification : Bool
deriving DecidableEq

/-- `AmLIExpert.analyze_user_intent` (bot.py lines 148-174). -/
def analyzeUserIntent (message : String) : IntentAnalysis :=
  let ml := pyLower message
  let j := anyKeyword ml jobKeywords
  let c := anyKeyword ml certKeywords
  let g := anyKeyword ml infoKeywords
  let f := anyKeyword ml fileKeywords
  let s := anyKeyword ml supportKeywords
  let primary := primaryIntent j c g f s
  { primary_intent := primary
    confidence := intentsLookup j c g f s primary
    enrollment_no := findEnrollment message
    requires_clarification :=
      (primary == "general") && decide (wordCount message < 5) }

/-! ### Data model: turns, responses, requests, external oracles -/

/-- One conversation turn, as stored in `conversation_history[session_id]`
(bot.py lines 197-201 and 221-225). -/
structure Turn where
  content : String
  isUser : Bool
  timestamp : String
deriving DecidableEq

/-- A record returned by the Supabase `search_documents` RPC; each field is
read with `document.get(...)`, hence optional. -/
structure DocRecord where
  name : Option String
  course : Option String
  status : Option String
  file_url : Option String
deriving DecidableEq

/-- The JSON object built by each handler and returned by `/chat`:
mandatory `response`, `timestamp`, `type`, plus the optional keys the
individual handlers add.  `type` values are the literal strings of the
code. -/
structure ChatResponse where
  response : String
  timestamp : String
  type : String
  error : Option String := none
  form_url : Option String := none
  enrollment_no : Option String := none
  document : Option DocRecord := none
  download_url : Option String := none
deriving DecidableEq

/-- The request body read by `chat()`: `data.get('message', '')`,
`data.get('intent', '')`, `data.get('session_id', 'default')`,
`data.get('enrollment_no')`, `data.get('password', '')`. -/
structure ChatRequest where
  message : String
  intent : String
  session_id : String
  enrollment_no : Option String
  password : Option String

/-- The object returned by `model.generate_content`: the duck-typed shapes
the code probes — a direct `.text` attribute (absent or a string) and the
nested `candidates[0].content.parts[0].text` (absent when `candidates` is
empty). -/
structure ModelResponse where
  text : Option String
  candidateText : Option String

/-- Outcome of the one `requests.post` of the document search: an HTTP
response with a status code and decoded JSON list, a
`requests.exceptions.Timeout`, or any other exception. -/
inductive HttpResult where
  | ok (status : Nat) (body : List DocRecord)
  | timeout
  | exn (msg : String)

/-- The Supabase configuration read from the environment
(`SUPABASE_URL`, `SUPABASE_ANON_KEY`): each is absent or a string. -/
structure SupabaseConfig where
  url : Option String
  key : Option String

/-- The external world a `/chat` request interacts with: the generation
service (per-attempt outcome) and the document-search service. -/
structure World where
  genStub : Nat → Except String ModelResponse
  supabase : SupabaseConfig
  net : HttpResult

/-- Python truthiness test `not x` for an optional string: `None` and the
empty string are falsy. -/
def optFalsy : Option String → Bool
  | none => true
  | some s => s == ""

/-- Python `a or b` on optional strings: `a` unless `a` is falsy. -/
def pyOr (a b : Option String) : Option String :=
  match a with
  | none => b
  | some s => if s = "" then b else some s

/-! ### Rule-based handlers -/

/-- The Google-forms URL of `handle_job_application`. -/
def jobFormUrl : String :=
  "https://docs.google.com/forms/d/e/1FAIpQLSe7kN4IqtYOvWmBBrgBzuu7Kv0oc415UEFPkFN6-6Ezn8XKaA/viewform"

/-- `handle_job_application` (bot.py lines 242-256). -/
def handleJobApplication (ts : String) : ChatResponse :=
  { response := "Great! You can apply for job roles or internships at AmLI. Here\u0027s what you need to know:\n\n📋 **Application Process:**\n1. Fill out our comprehensive application form\n2. Submit your resume and relevant documents\n3. Our team will review your application\n4. Qualified candidates will be contacted for interviews\n\n🔗 **Apply Now:** [Click here to access the application form](" ++ jobFormUrl ++ ")\n\nFor any questions about the application process, feel free to ask!"
    timestamp := ts
    type := "job_form"
    form_url := some jobFormUrl }

/-- The `request_enrollment` response of `handle_certificate_search`. -/
def reqEnrollResp (ts : String) : ChatResponse :=
  { response := "I can help you search for your certificate or offer letter. To proceed, I need your 6-digit Enrollment Number.\n\n📝 **Please provide:**\n• Your 6-digit Enrollment Number\n\nOnce you provide this, I\u0027ll guide you through the verification process to access your documents."
    timestamp := ts
    type := "request_enrollment" }

/-- The `request_password` response of `handle_certificate_search`. -/
def reqPassResp (enrollmentNo ts : String) : ChatResponse :=
  { response := "Thank you! I found enrollment number " ++ enrollmentNo ++ ". To access your documents, please provide the 6-digit password code associated with this enrollment.\n\n🔐 **Security Verification:**\n• Enter your 6-digit password\n• This ensures secure access to your personal documents"
    timestamp := ts
    type := "request_password"
    enrollment_no := some enrollmentNo }

/-- `handle_certificate_search` (bot.py lines 258-280):
`enrollment_no = data.get('enrollment_no') or intent_analysis.get('enrollment_no')`,
then prompt for the enrollment number if it is falsy, else for the password. -/
def handleCertificateSearch (req : ChatRequest) (a : IntentAnalysis)
    (ts : String) : ChatResponse :=
  match pyOr req.enrollment_no a.enrollment_no with
  | none => reqEnrollResp ts
  | some s => if s = "" then reqEnrollResp ts else reqPassResp s ts

/-! ### Document Search Client (`search_supabase_documents`) -/

/-- The `service_unavailable` response (unconfigured Supabase). -/
def serviceUnavailableResp (ts : String) : ChatResponse :=
  { response := "I apologize, but the document search service is currently unavailable. Please contact AmLI support for assistance."
    timestamp := ts
    type := "service_unavailable" }

/-- The `document_found` response built from the first record. -/
def documentFoundResp (doc : DocRecord) (enrollmentNo ts : String) :
    ChatResponse :=
  { response := "✅ **Document Found Successfully!**\n\n📋 **Your Details:**\n• **Name:** " ++ doc.name.getD "N/A" ++ "\n• **Course:** " ++ doc.course.getD "N/A" ++ "\n• **Status:** " ++ doc.status.getD "N/A" ++ "\n• **Enrollment:** " ++ enrollmentNo ++ "\n\n📥 **Download:** Your document is ready for download."
    timestamp := ts
    type := "document_found"
    document := some doc
    download_url := some (doc.file_url.getD "")
    enrollment_no := some enrollmentNo }

/-- The `no_document` response (HTTP 200, empty result list). -/
def noDocumentResp (ts : String) : ChatResponse :=
  { response := "❌ **Document Not Found**\n\nI couldn\u0027t find any documents with the provided credentials. Please verify:\n• Your 6-digit enrollment number is correct\n• Your 6-digit password is correct\n• You\u0027re using the right credentials for this service\n\nIf you continue to have issues, please contact AmLI support."
    timestamp := ts
    type := "no_document" }

/-- The `database_error` response (non-200 HTTP status). -/
def databaseErrorResp (ts : String) : ChatResponse :=
  { response := "⚠️ **Service Temporarily Unavailable**\n\nThe document search service is experiencing technical difficulties. Please try again in a few minutes or contact AmLI support if the issue persists."
    timestamp := ts
    type := "database_error" }

/-- The `timeout` response (`requests.exceptions.Timeout`). -/
def timeoutResp (ts : String) : ChatResponse :=
  { response := "⏱️ **Request Timeout**\n\nThe search is taking longer than expected. Please try again in a moment."
    timestamp := ts
    type := "timeout" }

/-- The generic `error` response of the document search (any other
exception). -/
def searchErrorResp (ts : String) : ChatResponse :=
  { response := "🔧 **Technical Error**\n\nI encountered an error while searching for your documents. Please try again or contact AmLI support for assistance."
    timestamp := ts
    type := "error" }

/-- `search_supabase_documents` (bot.py lines 348-423).  Returns the
response together with the number of HTTP requests issued (`requests.post`
appears once, outside any loop).  Total: every branch of the Python
function returns a dict; nothing escapes its `try/except`. -/
def searchSupabaseDocuments (cfg : SupabaseConfig) (net : HttpResult)
    (enrollmentNo ts : String) : ChatResponse × Nat :=
  if optFalsy cfg.url || optFalsy cfg.key then
    (serviceUnavailableResp ts, 0)
  else
    match net with
    | HttpResult.ok status body =>
      if status = 200 then
        match body with
        | doc :: _ => (documentFoundResp doc enrollmentNo ts, 1)
        | [] => (noDocumentResp ts, 1)
      else (databaseErrorResp ts, 1)
    | HttpResult.timeout => (timeoutResp ts, 1)
    | HttpResult.exn _ => (searchErrorResp ts, 1)

/-- The local validation error of `handle_password_verification`. -/
def validationErrorResp (ts : String) : ChatResponse :=
  { response := "Please provide both your enrollment number and password to access your documents."
    timestamp := ts
    type := "error"
    error := some "Both enrollment number and password are required" }

/-- `handle_password_verification` (bot.py lines 282-297):
`data.get('enrollment_no', '')` / `data.get('password', '')`, a local
presence check, then the Supabase search.  Second component: HTTP requests
issued. -/
def handlePasswordVerification (req : ChatRequest) (cfg : SupabaseConfig)
    (net : HttpResult) (ts : String) : ChatResponse × Nat :=
  let e := req.enrollment_no.getD ""
  let p := req.password.getD ""
  if e = "" || p = "" then (validationErrorResp ts, 0)
  else searchSupabaseDocuments cfg net e ts

/-! ### Generation Client (`generate_ai_response`) -/

/-- The fallback extraction `response.candidates[0].content.parts[0].text
.strip()`, or the `ValueError("No response text found")` when `candidates`
is empty. -/
def extractCandidates (r : ModelResponse) : Except String String :=
  match r.candidateText with
  | some c => Except.ok (pyStrip c)
  | none => Except.error "No response text found"

/-- The duck-typed extraction of bot.py lines 317-322: use `.text` when
present and truthy, else fall back to the candidates path. -/
def extractText (r : ModelResponse) : Except String String :=
  match r.text with
  | some t => if t = "" then extractCandidates r else Except.ok (pyStrip t)
  | none => extractCandidates r

/-- One loop body of the retry loop (bot.py lines 313-326): the remote call
outcome, the text extraction, then the
`if len(ai_response) < 10: raise ValueError("Response too short")` check.
`Except.error` is a raised exception caught by the per-attempt handler. -/
def processAttempt (call : Except String ModelResponse) :
    Except String String :=
  match call with
  | Except.error m => Except.error m
  | Except.ok r =>
    match extractText r with
    | Except.error m => Except.error m
    | Except.ok s =>
      if s.length < 10 then Except.error "Response too short" else Except.ok s

/-- `for attempt in range(max_retries)` with `max_retries = 3` (bot.py
lines 311-338), unrolled: each failed non-final attempt falls through to
the next via `continue` (the loop contains no sleep), and the last
attempt re-raises.  Second component: the number of attempts made. -/
def genAttempts (stub : Nat → Except String ModelResponse) :
    Except String String × Nat :=
  match processAttempt (stub 0) with
  | Except.ok s => (Except.ok s, 1)
  | Except.error _ =>
    match processAttempt (stub 1) with
    | Except.ok s => (Except.ok s, 2)
    | Except.error _ =>
      match processAttempt (stub 2) with
      | Except.ok s => (Except.ok s, 3)
      | Except.error m => (Except.error m, 3)

/-- The apology of the outer `except` of `generate_ai_response`
(bot.py lines 340-346). -/
def genApologyText : String :=
  "I apologize, but I\u0027m having trouble processing your request right now. Please try rephrasing your question or try again in a moment. If the issue persists, please contact AmLI support."

/-- Result of the Generation Client: the response, the number of attempts
made, and the list of backoff sleeps performed between attempts — the loop
of bot.py lines 312-338 contains no `time.sleep`, so this list is empty. -/
structure GenResult where
  resp : ChatResponse
  attempts : Nat
  sleeps : List ℚ

/-- `generate_ai_response` (bot.py lines 299-346): run the retry loop; a
success becomes a `general_response`, the re-raised last exception is
caught by the outer `except` and becomes the apology `error` response. -/
def generateAiResponse (stub : Nat → Except String ModelResponse)
    (ts : String) : GenResult :=
  match genAttempts stub with
  | (Except.ok s, n) =>
    { resp := { response := s, timestamp := ts, type := "general_response" }
      attempts := n
      sleeps := [] }
  | (Except.error _, n) =>
    { resp := { response := genApologyText, timestamp := ts, type := "error" }
      attempts := n
      sleeps := [] }

/-! ### Conversation window and Router (`chat`) -/

/-- The last `n` elements of a list (Python `l[-n:]` for `n ≤ len(l)`;
the whole list when it is shorter). -/
def lastN (n : Nat) (l : List α) : List α := l.drop (l.length - n)

/-- The trim of bot.py lines 227-229:
`if len(h) > 20: h = h[-20:]`. -/
def histTrim (l : List Turn) : List Turn :=
  if 20 < l.length then lastN 20 l else l

/-- The per-turn sliding-window append of the Conversation Store (spec
§4.2): append one turn, then apply the same 20-bound trim the router
applies.  The router performs it pairwise (user turn, assistant turn, one
trim); `histTrim_pair_eq_storeAppend` below relates the two. -/
def storeAppend (h : List Turn) (t : Turn) : List Turn :=
  histTrim (h ++ [t])

/-- Outcome of one `/chat` request (bot.py lines 180-240): whether the
empty-message rejection fired (HTTP 400), the JSON payload, the session's
history after the request, and how many generation attempts / search
requests hit the remote services. -/
structure ChatResult where
  rejected : Bool
  resp : ChatResponse
  hist : List Turn
  genCalls : Nat
  searchCalls : Nat

/-- Result of the intent dispatch of bot.py lines 210-218. -/
structure DispatchResult where
  resp : ChatResponse
  genCalls : Nat
  searchCalls : Nat

/-- The dispatch chain of bot.py lines 210-218.  Note each of the first two
branches tests the explicit intent *or* the classifier's primary intent. -/
def dispatch (req : ChatRequest) (a : IntentAnalysis) (w : World)
    (ts : String) : DispatchResult :=
  if req.intent = "job_application" ∨ a.primary_intent = "job_application" then
    { resp := handleJobApplication ts, genCalls := 0, searchCalls := 0 }
  else if req.intent = "certificate_search" ∨
      a.primary_intent = "certificate_search" then
    { resp := handleCertificateSearch req a ts, genCalls := 0, searchCalls := 0 }
  else if req.intent = "verify_password" then
    { resp := (handlePasswordVerification req w.supabase w.net ts).1
      genCalls := 0
      searchCalls := (handlePasswordVerification req w.supabase w.net ts).2 }
  else
    { resp := (generateAiResponse w.genStub ts).resp
      genCalls := (generateAiResponse w.genStub ts).attempts
      searchCalls := 0 }

/-- The `/chat` endpoint (bot.py lines 180-240) for one session: strip the
message; reject when empty (before any history mutation); append the user
turn; classify; dispatch; append the assistant turn; trim to the 20-turn
window. -/
def chat (req : ChatRequest) (hist : List Turn) (ts : String) (w : World) :
    ChatResult :=
  let user := pyStrip req.message
  if user = "" then
    { rejected := true
      resp := { response := "", timestamp := ts, type := ""
                error := some "Please enter a message" }
      hist := hist
      genCalls := 0
      searchCalls := 0 }
  else
    let hist1 := hist ++ [{ content := user, isUser := true, timestamp := ts }]
    let a := analyzeUserIntent user
    let d := dispatch req a w ts
    let hist2 := hist1 ++
      [{ content := d.resp.response, isUser := false
         timestamp := d.resp.timestamp }]
    { rejected := false
      resp := d.resp
      hist := histTrim hist2
      genCalls := d.genCalls
      searchCalls := d.searchCalls }

/-! ### Window lemmas -/

theorem lastN_length_le (n : Nat) (l : List α) : (lastN n l).length ≤ n := by
  unfold lastN
  rw [List.length_drop]
  omega

theorem lastN_of_length_le {n : Nat} {l : List α} (h : l.length ≤ n) :
    lastN n l = l := by
  unfold lastN
  rw [Nat.sub_eq_zero_of_le h]
  rfl

theorem histTrim_eq_lastN (l : List Turn) : histTrim l = lastN 20 l := by
  unfold histTrim
  split
  · rfl
  · rw [lastN_of_length_le (by omega)]

theorem lastN_lastN {m n : Nat} (h : m ≤ n) (l : List α) :
    lastN m (lastN n l) = lastN m l := by
  unfold lastN
  rw [List.length_drop, List.drop_drop]
  congr 1
  omega

theorem lastN_append_left (n : Nat) (x y : List α) :
    lastN n (lastN n x ++ y) = lastN n (x ++ y) := by
  unfold lastN
  rw [← List.drop_append_of_le_length (show x.length - n ≤ x.length by omega)]
  rw [List.length_drop, List.length_append, List.drop_drop]
  congr 1
  omega

theorem lastN_full_suffix (l₁ l₂ : List α) :
    lastN l₂.length (l₁ ++ l₂) = l₂ := by
  unfold lastN
  rw [List.length_append, show l₁.length + l₂.length - l₂.length = l₁.length
    from by omega, List.drop_left]

theorem storeAppend_length_le (h : List Turn) (t : Turn) :
    (storeAppend h t).length ≤ 20 := by
  unfold storeAppend
  rw [histTrim_eq_lastN]
  exact lastN_length_le 20 _

/-- The router's pairwise append-and-trim equals two single-turn
sliding-window appends. -/
theorem histTrim_pair_eq_storeAppend (h : List Turn) (u a : Turn) :
    histTrim (h ++ [u, a]) = storeAppend (storeAppend h u) a := by
  unfold storeAppend
  rw [histTrim_eq_lastN, histTrim_eq_lastN, histTrim_eq_lastN,
    lastN_append_left, List.append_assoc]
  rfl

/-- Folding the sliding-window append from an in-bound state keeps exactly
the last 20 turns of the whole stream. -/
theorem foldl_storeAppend_eq (l : List Turn) :
    ∀ acc : List Turn, acc.length ≤ 20 →
      List.foldl storeAppend acc l = lastN 20 (acc ++ l) := by
  induction l with
  | nil =>
    intro acc hacc
    rw [List.append_nil, lastN_of_length_le hacc]
    rfl
  | cons t l ih =>
    intro acc hacc
    rw [List.foldl_cons, ih (storeAppend acc t) (storeAppend_length_le acc t)]
    unfold storeAppend
    rw [histTrim_eq_lastN, lastN_append_left, List.append_assoc]
    rfl

/-! ### Unfolding and classification lemmas -/

theorem chat_not_rejected (req : ChatRequest) (hist : List Turn)
    (ts : String) (w : World) (hm : ¬ pyStrip req.message = "") :
    (chat req hist ts w).rejected = false := by
  simp only [chat]
  rw [if_neg hm]

theorem chat_resp (req : ChatRequest) (hist : List Turn) (ts : String)
    (w : World) (hm : ¬ pyStrip req.message = "") :
    (chat req hist ts w).resp =
      (dispatch req (analyzeUserIntent (pyStrip req.message)) w ts).resp := by
  simp only [chat]
  rw [if_neg hm]

theorem chat_genCalls (req : ChatRequest) (hist : List Turn) (ts : String)
    (w : World) (hm : ¬ pyStrip req.message = "") :
    (chat req hist ts w).genCalls =
      (dispatch req (analyzeUserIntent (pyStrip req.message)) w ts).genCalls := by
  simp only [chat]
  rw [if_neg hm]

theorem chat_searchCalls (req : ChatRequest) (hist : List Turn) (ts : String)
    (w : World) (hm : ¬ pyStrip req.message = "") :
    (chat req hist ts w).searchCalls =
      (dispatch req (analyzeUserIntent (pyStrip req.message)) w ts).searchCalls := by
  simp only [chat]
  rw [if_neg hm]

theorem chat_hist (req : ChatRequest) (hist : List Turn) (ts : String)
    (w : World) (hm : ¬ pyStrip req.message = "") :
    (chat req hist ts w).hist =
      histTrim (hist ++
        [Turn.mk (pyStrip req.message) true ts,
         Turn.mk (chat req hist ts w).resp.response false
           (chat req hist ts w).resp.timestamp]) := by
  rw [chat_resp req hist ts w hm]
  simp only [chat]
  rw [if_neg hm]
  simp [List.append_assoc]

theorem chat_eq_of_empty (req : ChatRequest) (hist : List Turn) (ts : String)
    (w : World) (hm : pyStrip req.message = "") :
    chat req hist ts w =
      { rejected := true
        resp := { response := "", timestamp := ts, type := ""
                  error := some "Please enter a message" }
        hist := hist
        genCalls := 0
        searchCalls := 0 } := by
  simp only [chat]
  rw [if_pos hm]

theorem dispatch_job {req : ChatRequest} {a : IntentAnalysis} (w : World)
    (ts : String)
    (h : req.intent = "job_application" ∨ a.primary_intent = "job_application") :
    dispatch req a w ts =
      { resp := handleJobApplication ts, genCalls := 0, searchCalls := 0 } := by
  unfold dispatch
  rw [if_pos h]

theorem dispatch_cert {req : ChatRequest} {a : IntentAnalysis} (w : World)
    (ts : String)
    (h1 : ¬(req.intent = "job_application" ∨
      a.primary_intent = "job_application"))
    (h2 : req.intent = "certificate_search" ∨
      a.primary_intent = "certificate_search") :
    dispatch req a w ts =
      { resp := handleCertificateSearch req a ts
        genCalls := 0, searchCalls := 0 } := by
  unfold dispatch
  rw [if_neg h1, if_pos h2]

theorem dispatch_verify {req : ChatRequest} {a : IntentAnalysis} (w : World)
    (ts : String)
    (h1 : ¬(req.intent = "job_application" ∨
      a.primary_intent = "job_application"))
    (h2 : ¬(req.intent = "certificate_search" ∨
      a.primary_intent = "certificate_search"))
    (h3 : req.intent = "verify_password") :
    dispatch req a w ts =
      { resp := (handlePasswordVerification req w.supabase w.net ts).1
        genCalls := 0
        searchCalls := (handlePasswordVerification req w.supabase w.net ts).2 } := by
  unfold dispatch
  rw [if_neg h1, if_neg h2, if_pos h3]

theorem dispatch_gen {req : ChatRequest} {a : IntentAnalysis} (w : World)
    (ts : String)
    (h1 : ¬(req.intent = "job_application" ∨
      a.primary_intent = "job_application"))
    (h2 : ¬(req.intent = "certificate_search" ∨
      a.primary_intent = "certificate_search"))
    (h3 : ¬ req.intent = "verify_password") :
    dispatch req a w ts =
      { resp := (generateAiResponse w.genStub ts).resp
        genCalls := (generateAiResponse w.genStub ts).attempts
        searchCalls := 0 } := by
  unfold dispatch
  rw [if_neg h1, if_neg h2, if_neg h3]

theorem handleCertificateSearch_type (req : ChatRequest) (a : IntentAnalysis)
    (ts : String) :
    (handleCertificateSearch req a ts).type = "request_enrollment" ∨
      (handleCertificateSearch req a ts).type = "request_password" := by
  unfold handleCertificateSearch
  cases pyOr req.enrollment_no a.enrollment_no with
  | none => left; rfl
  | some s =>
    by_cases h : s = ""
    · simp [h, reqEnrollResp]
    · simp [h, reqPassResp]

theorem searchSupabase_type_mem (cfg : SupabaseConfig) (net : HttpResult)
    (e ts : String) :
    (searchSupabaseDocuments cfg net e ts).1.type ∈
      ["service_unavailable", "document_found", "no_document",
       "database_error", "timeout", "error"] := by
  unfold searchSupabaseDocuments
  by_cases hc : (optFalsy cfg.url || optFalsy cfg.key) = true
  · rw [if_pos hc]; simp [serviceUnavailableResp]
  · rw [if_neg hc]
    rcases net with ⟨status, body⟩ | _ | m
    · rcases body with _ | ⟨d, rest⟩
      · by_cases hs : status = 200
        · simp [hs, noDocumentResp]
        · simp [hs, databaseErrorResp]
      · by_cases hs : status = 200
        · simp [hs, documentFoundResp]
        · simp [hs, databaseErrorResp]
    · simp [timeoutResp]
    · simp [searchErrorResp]

theorem handlePasswordVerification_type_mem (req : ChatRequest)
    (cfg : SupabaseConfig) (net : HttpResult) (ts : String) :
    (handlePasswordVerification req cfg net ts).1.type ∈
      ["error", "service_unavailable", "document_found", "no_document",
       "database_error", "timeout"] := by
  unfold handlePasswordVerification
  by_cases he : req.enrollment_no.getD "" = ""
  · simp [he, validationErrorResp]
  · by_cases hp : req.password.getD "" = ""
    · simp [he, hp, validationErrorResp]
    · simp only [he, hp]
      have hmem := searchSupabase_type_mem cfg net (req.enrollment_no.getD "") ts
      simp only [List.mem_cons, List.mem_singleton,
        List.not_mem_nil, or_false] at hmem ⊢
      simp [he, hp]
      tauto

theorem generateAiResponse_type (stub : Nat → Except String ModelResponse)
    (ts : String) :
    ((generateAiResponse stub ts).resp.type = "general_response" ∨
      (generateAiResponse stub ts).resp.type = "error") ∧
      1 ≤ (generateAiResponse stub ts).attempts := by
  unfold generateAiResponse genAttempts
  cases h0 : processAttempt (stub 0) with
  | ok s => simp [h0]
  | error m =>
    cases h1 : processAttempt (stub 1) with
    | ok s => simp [h0, h1]
    | error m1 =>
      cases h2 : processAttempt (stub 2) with
      | ok s => simp [h0, h1, h2]
      | error m2 => simp [h0, h1, h2]

/-! ### Claims about the Generation Client (C4, C5, C10) -/

deriving instance DecidableEq for Except

/-- A stub that raises on the first two attempts and succeeds on the
third. -/
def c4Stub : Nat → Except String ModelResponse :=
  fun i =>
    if i < 2 then Except.error "Deadline exceeded"
    else Except.ok
      { text := some "Here is a detailed answer to your question."
        candidateText := none }

/-- C4 counterexample: with a stub raising on the first two attempts and
succeeding on the third, the Generation Client makes 3 attempts and
succeeds, but performs no backoff sleeps at all — not the 0.8 then 1.6
sleeps the claim asserts (the retry loop of bot.py lines 312-338 contains
no sleep). -/
theorem c4_counterexample :
    (generateAiResponse c4Stub "t").resp.type = "general_response" ∧
    (generateAiResponse c4Stub "t").attempts = 3 ∧
    (generateAiResponse c4Stub "t").sleeps = [] ∧
    (generateAiResponse c4Stub "t").sleeps ≠ [(4 : ℚ) / 5, 8 / 5] := by
  have hs : (generateAiResponse c4Stub "t").sleeps = [] := by decide
  refine ⟨by decide, by decide, hs, ?_⟩
  rw [hs]
  simp

/-- C4 (amended): the Generation Client makes up to 3 attempts total and
retries failed non-final attempts immediately, with no backoff sleep; a
stub that raises on the first two attempts and succeeds on the third still
yields a general_response-typed success, and on the last attempt the
exception propagates out of the retry loop (and is classified by the outer
handler into a terminal error response). -/
theorem c4_retry_amended :
    ∀ (stub : Nat → Except String ModelResponse) (ts : String),
    (∀ m0 m1 s, processAttempt (stub 0) = Except.error m0 →
      processAttempt (stub 1) = Except.error m1 →
      processAttempt (stub 2) = Except.ok s →
      (generateAiResponse stub ts).resp.type = "general_response" ∧
      (generateAiResponse stub ts).resp.response = s ∧
      (generateAiResponse stub ts).attempts = 3 ∧
      (generateAiResponse stub ts).sleeps = []) ∧
    (∀ m0 m1 m2, processAttempt (stub 0) = Except.error m0 →
      processAttempt (stub 1) = Except.error m1 →
      processAttempt (stub 2) = Except.error m2 →
      (genAttempts stub).1 = Except.error m2 ∧
      (generateAiResponse stub ts).resp.type = "error" ∧
      (generateAiResponse stub ts).resp.response = genApologyText ∧
      (generateAiResponse stub ts).attempts = 3 ∧
      (generateAiResponse stub ts).sleeps = []) := by
  intro stub ts
  constructor
  · intro m0 m1 s h0 h1 h2
    simp [generateAiResponse, genAttempts, h0, h1, h2]
  · intro m0 m1 m2 h0 h1 h2
    simp [generateAiResponse, genAttempts, h0, h1, h2]

/-- C4 witness: `c4_retry_amended` applied to the concrete two-failures
stub. -/
theorem c4_witness :
    (generateAiResponse c4Stub "t").resp.type = "general_response" ∧
    (generateAiResponse c4Stub "t").resp.response =
      "Here is a detailed answer to your question." ∧
    (generateAiResponse c4Stub "t").attempts = 3 ∧
    (generateAiResponse c4Stub "t").sleeps = [] :=
  (c4_retry_amended c4Stub "t").1 "Deadline exceeded" "Deadline exceeded"
    "Here is a detailed answer to your question."
    (by decide) (by decide) (by decide)

/-- A stub whose failure message mentions the quota on every attempt. -/
def c5Stub : Nat → Except String ModelResponse :=
  fun _ => Except.error "429 quota exceeded rate limit"

/-- C5 counterexample: a stub failing with a quota message on every attempt
yields the generic `error` type, not `quota_exceeded` —
`generate_ai_response` (bot.py lines 340-346) performs no substring
inspection of the stringified error. -/
theorem c5_counterexample :
    (generateAiResponse c5Stub "t").resp.type = "error" ∧
    (generateAiResponse c5Stub "t").resp.type ≠ "quota_exceeded" := by
  constructor
  · decide
  · decide

/-- C5 (amended): when the Generation Client exhausts its retries, the
terminal failure always produces the one generic error-typed apology
response regardless of the error message's content — there is no
quota/429/rate-limit substring classification and no `quota_exceeded`
type; the response is returned as a normal value, never thrown. -/
theorem c5_failure_amended :
    ∀ (stub : Nat → Except String ModelResponse) (ts : String),
    ((generateAiResponse stub ts).resp.type = "general_response" ∨
      ((generateAiResponse stub ts).resp.type = "error" ∧
        (generateAiResponse stub ts).resp.response = genApologyText)) ∧
    (generateAiResponse stub ts).resp.type ≠ "quota_exceeded" ∧
    (∀ m, (genAttempts stub).1 = Except.error m →
      (generateAiResponse stub ts).resp.type = "error" ∧
      (generateAiResponse stub ts).resp.response = genApologyText) := by
  intro stub ts
  cases hg : genAttempts stub with
  | mk r n =>
    cases r with
    | error m =>
      refine ⟨Or.inr ?_, ?_, ?_⟩
      · simp [generateAiResponse, hg]
      · simp [generateAiResponse, hg]
      · intro m2 hm2
        simp [generateAiResponse, hg]
    | ok s =>
      refine ⟨Or.inl ?_, ?_, ?_⟩
      · simp [generateAiResponse, hg]
      · simp [generateAiResponse, hg]
      · intro m2 hm2
        simp at hm2

/-- C5 witness: `c5_failure_amended` applied to the concrete quota-message
stub. -/
theorem c5_witness :
    (generateAiResponse c5Stub "t2").resp.type = "error" ∧
    (generateAiResponse c5Stub "t2").resp.response = genApologyText :=
  (c5_failure_amended c5Stub "t2").2.2 "429 quota exceeded rate limit"
    (by decide)

/-- A stub returning a too-short text on the first attempt and a long one
on the second. -/
def c10Stub : Nat → Except String ModelResponse :=
  fun i =>
    if i = 0 then Except.ok { text := some "short", candidateText := none }
    else Except.ok
      { text := some "This answer is long enough to pass validation."
        candidateText := none }

/-- A stub returning a too-short text on every attempt. -/
def c10StubAll : Nat → Except String ModelResponse :=
  fun _ => Except.ok { text := some "short", candidateText := none }

/-- C10 (confirmed): a returned generation whose stripped text is shorter
than 10 characters is treated as a failed attempt exactly like an
exception (`ValueError("Response too short")`, bot.py lines 325-326): it
triggers a retry, and when it happens on the last attempt the call
produces the error-typed apology instead of returning the short text. -/
theorem c10_short_response :
    (∀ t : String, ¬ t = "" → (pyStrip t).length < 10 →
      processAttempt (Except.ok { text := some t, candidateText := none }) =
        Except.error "Response too short") ∧
    (∀ (stub : Nat → Except String ModelResponse) (ts s : String),
      processAttempt (stub 0) = Except.error "Response too short" →
      processAttempt (stub 1) = Except.ok s →
      (generateAiResponse stub ts).resp.type = "general_response" ∧
      (generateAiResponse stub ts).resp.response = s ∧
      (generateAiResponse stub ts).attempts = 2) ∧
    (∀ (stub : Nat → Except String ModelResponse) (ts : String),
      (∀ i, processAttempt (stub i) = Except.error "Response too short") →
      (generateAiResponse stub ts).resp.type = "error" ∧
      (generateAiResponse stub ts).resp.response = genApologyText ∧
      (generateAiResponse stub ts).attempts = 3) := by
  refine ⟨?_, ?_, ?_⟩
  · intro t ht hlen
    simp [processAttempt, extractText, ht, hlen]
  · intro stub ts s h0 h1
    simp [generateAiResponse, genAttempts, h0, h1]
  · intro stub ts h
    simp [generateAiResponse, genAttempts, h 0, h 1, h 2]

/-- C10 witness: `c10_short_response` applied to "short" and the concrete
stubs. -/
theorem c10_witness :
    processAttempt
        (Except.ok { text := some "short", candidateText := none }) =
      Except.error "Response too short" ∧
    ((generateAiResponse c10Stub "t").resp.type = "general_response" ∧
      (generateAiResponse c10Stub "t").resp.response =
        "This answer is long enough to pass validation." ∧
      (generateAiResponse c10Stub "t").attempts = 2) ∧
    ((generateAiResponse c10StubAll "t").resp.type = "error" ∧
      (generateAiResponse c10StubAll "t").resp.response = genApologyText ∧
      (generateAiResponse c10StubAll "t").attempts = 3) := by
  refine ⟨?_, ?_, ?_⟩
  · exact c10_short_response.1 "short" (by decide) (by decide)
  · exact c10_short_response.2.1 c10Stub "t"
      "This answer is long enough to pass validation." (by decide) (by decide)
  · exact c10_short_response.2.2 c10StubAll "t" (fun i => rfl)

/-! ### Claims about the classifier (C7) and the search clients (C3, C9) -/

theorem primaryIntent_mem (j c g f s : Bool) :
    primaryIntent j c g f s ∈
      ["job_application", "certificate_search", "general_info",
       "file_analysis", "support", "general"] := by
  unfold primaryIntent
  split_ifs <;> simp

/-- C7 counterexample: the classifier maps "2+2" to `general`; there is no
`simple_math` (or any math) category in `analyze_user_intent`, and no
arithmetic evaluation anywhere in the handler chain. -/
theorem c7_counterexample :
    (analyzeUserIntent "2+2").primary_intent = "general" ∧
    (analyzeUserIntent "2+2").primary_intent ≠ "simple_math" ∧
    (analyzeUserIntent "2+2").primary_intent ≠ "math" := by
  refine ⟨by decide, by decide, by decide⟩

/-- C7 (amended): the Intent Classifier has no `simple_math` category and
performs no arithmetic evaluation: its codomain is exactly
job_application, certificate_search, general_info, file_analysis, support
and general; "2+2" is classified as `general` (not math), and
"hello world" is likewise classified as `general`. -/
theorem c7_math_amended :
    (∀ msg : String, (analyzeUserIntent msg).primary_intent ∈
      ["job_application", "certificate_search", "general_info",
       "file_analysis", "support", "general"]) ∧
    (analyzeUserIntent "2+2").primary_intent = "general" ∧
    (analyzeUserIntent "hello world").primary_intent = "general" := by
  refine ⟨?_, by decide, by decide⟩
  intro msg
  exact primaryIntent_mem _ _ _ _ _

/-- C3 (confirmed): the Document Search Client is a total function of the
one HTTP outcome — it never throws and issues exactly one request when
configured (no retries) and none when unconfigured — and classifies that
outcome into exactly one of the five response types as claimed
(HTTP 200 + non-empty list → `document_found` with the first record and
its download reference; 200 + empty → `no_document`; non-200 →
`database_error`; timeout → `timeout`; other exception → `error`). -/
theorem c3_search_classification :
    ∀ (cfg : SupabaseConfig) (net : HttpResult) (e ts : String),
    ((optFalsy cfg.url || optFalsy cfg.key) = true →
      searchSupabaseDocuments cfg net e ts = (serviceUnavailableResp ts, 0)) ∧
    ((optFalsy cfg.url || optFalsy cfg.key) = false →
      (searchSupabaseDocuments cfg net e ts).2 = 1 ∧
      (searchSupabaseDocuments cfg net e ts).1.type ∈
        ["document_found", "no_document", "database_error", "timeout",
         "error"] ∧
      (∀ d rest, net = HttpResult.ok 200 (d :: rest) →
        (searchSupabaseDocuments cfg net e ts).1 = documentFoundResp d e ts ∧
        (searchSupabaseDocuments cfg net e ts).1.document = some d ∧
        (searchSupabaseDocuments cfg net e ts).1.download_url =
          some (d.file_url.getD "")) ∧
      (net = HttpResult.ok 200 [] →
        (searchSupabaseDocuments cfg net e ts).1 = noDocumentResp ts) ∧
      (∀ status body, net = HttpResult.ok status body → ¬ status = 200 →
        (searchSupabaseDocuments cfg net e ts).1 = databaseErrorResp ts) ∧
      (net = HttpResult.timeout →
        (searchSupabaseDocuments cfg net e ts).1 = timeoutResp ts) ∧
      (∀ m, net = HttpResult.exn m →
        (searchSupabaseDocuments cfg net e ts).1 = searchErrorResp ts)) := by
  intro cfg net e ts
  constructor
  · intro hc
    unfold searchSupabaseDocuments
    rw [if_pos hc]
  · intro hc
    have hcn : ¬ (optFalsy cfg.url || optFalsy cfg.key) = true := by
      simp [hc]
    unfold searchSupabaseDocuments
    rw [if_neg hcn]
    rcases net with ⟨status, body⟩ | _ | m
    · by_cases hs : status = 200
      · subst hs
        rcases body with _ | ⟨d, rest⟩
        · simp [noDocumentResp]
        · simp [documentFoundResp]
      · simp [hs, databaseErrorResp]
    · simp [timeoutResp]
    · simp [searchErrorResp]

/-- A record used to instantiate the C3 theorem. -/
def c3Doc : DocRecord :=
  { name := some "Jane Doe", course := some "Data Science"
    status := some "Completed"
    file_url := some "https://example.com/doc.pdf" }

/-- C3 witness: `c3_search_classification` at a configured service with a
200 response carrying one record, and at an unconfigured service. -/
theorem c3_witness :
    (searchSupabaseDocuments
      { url := some "https://example.supabase.co", key := some "anon-key" }
      (HttpResult.ok 200 [c3Doc]) "123456" "t").2 = 1 ∧
    (searchSupabaseDocuments
      { url := some "https://example.supabase.co", key := some "anon-key" }
      (HttpResult.ok 200 [c3Doc]) "123456" "t").1 =
        documentFoundResp c3Doc "123456" "t" ∧
    searchSupabaseDocuments { url := none, key := none }
      (HttpResult.ok 200 [c3Doc]) "123456" "t" =
        (serviceUnavailableResp "t", 0) := by
  refine ⟨?_, ?_, ?_⟩
  · exact ((c3_search_classification
      { url := some "https://example.supabase.co", key := some "anon-key" }
      (HttpResult.ok 200 [c3Doc]) "123456" "t").2 (by decide)).1
  · exact (((c3_search_classification
      { url := some "https://example.supabase.co", key := some "anon-key" }
      (HttpResult.ok 200 [c3Doc]) "123456" "t").2 (by decide)).2.2.1
        c3Doc [] rfl).1
  · exact (c3_search_classification { url := none, key := none }
      (HttpResult.ok 200 [c3Doc]) "123456" "t").1 (by decide)

/-- C9 (confirmed): `certificate_search` with no enrollment number
(supplied or detected) yields `request_enrollment`; with one present it
yields `request_password`; `verify_password` demands both the enrollment
number and the password and returns the local validation error when either
is missing; and the remote document search is only ever reached from the
`verify_password` branch of the router. -/
theorem c9_certificate_flow :
    (∀ (req : ChatRequest) (a : IntentAnalysis) (ts : String),
      optFalsy (pyOr req.enrollment_no a.enrollment_no) = true →
      handleCertificateSearch req a ts = reqEnrollResp ts ∧
      (handleCertificateSearch req a ts).type = "request_enrollment") ∧
    (∀ (req : ChatRequest) (a : IntentAnalysis) (ts s : String),
      pyOr req.enrollment_no a.enrollment_no = some s → ¬ s = "" →
      handleCertificateSearch req a ts = reqPassResp s ts ∧
      (handleCertificateSearch req a ts).type = "request_password" ∧
      (handleCertificateSearch req a ts).enrollment_no = some s) ∧
    (∀ (req : ChatRequest) (cfg : SupabaseConfig) (net : HttpResult)
        (ts : String),
      req.enrollment_no.getD "" = "" ∨ req.password.getD "" = "" →
      handlePasswordVerification req cfg net ts = (validationErrorResp ts, 0)) ∧
    (∀ (req : ChatRequest) (cfg : SupabaseConfig) (net : HttpResult)
        (ts : String),
      ¬ req.enrollment_no.getD "" = "" → ¬ req.password.getD "" = "" →
      handlePasswordVerification req cfg net ts =
        searchSupabaseDocuments cfg net (req.enrollment_no.getD "") ts) ∧
    (∀ (req : ChatRequest) (hist : List Turn) (ts : String) (w : World),
      1 ≤ (chat req hist ts w).searchCalls →
      req.intent = "verify_password" ∧ req.intent ≠ "certificate_search") := by
  refine ⟨?_, ?_, ?_, ?_, ?_⟩
  · intro req a ts h
    unfold handleCertificateSearch
    cases hE : pyOr req.enrollment_no a.enrollment_no with
    | none => exact ⟨rfl, rfl⟩
    | some s =>
      rw [hE] at h
      simp only [optFalsy, beq_iff_eq] at h
      simp [h, reqEnrollResp]
  · intro req a ts s hE hs
    unfold handleCertificateSearch
    rw [hE]
    simp [hs, reqPassResp]
  · intro req cfg net ts h
    unfold handlePasswordVerification
    rcases h with h | h <;> simp [h]
  · intro req cfg net ts he hp
    unfold handlePasswordVerification
    simp [he, hp]
  · intro req hist ts w h
    by_cases hm : pyStrip req.message = ""
    · rw [chat_eq_of_empty req hist ts w hm] at h
      simp at h
    · rw [chat_searchCalls req hist ts w hm] at h
      by_cases h1 : (req.intent = "job_application" ∨
        (analyzeUserIntent (pyStrip req.message)).primary_intent =
          "job_application")
      · rw [dispatch_job w ts h1] at h
        simp at h
      · by_cases h2 : (req.intent = "certificate_search" ∨
          (analyzeUserIntent (pyStrip req.message)).primary_intent =
            "certificate_search")
        · rw [dispatch_cert w ts h1 h2] at h
          simp at h
        · by_cases h3 : req.intent = "verify_password"
          · refine ⟨h3, ?_⟩
            rw [h3]
            simp
          · rw [dispatch_gen w ts h1 h2 h3] at h
            simp at h

/-- C9 witness: `c9_certificate_flow` at concrete requests covering the
no-enrollment, enrollment-present, missing-credentials, full-credentials
and router-reachability cases. -/
theorem c9_witness :
    handleCertificateSearch
        { message := "I want to find my certificate"
          intent := "certificate_search", session_id := "s"
          enrollment_no := none, password := none }
        (analyzeUserIntent "I want to find my certificate") "t" =
      reqEnrollResp "t" ∧
    (handleCertificateSearch
        { message := "m", intent := "certificate_search", session_id := "s"
          enrollment_no := some "123456", password := none }
        (analyzeUserIntent "m") "t").type = "request_password" ∧
    handlePasswordVerification
        { message := "m", intent := "verify_password", session_id := "s"
          enrollment_no := none, password := none }
        { url := some "u", key := some "k" } (HttpResult.ok 200 []) "t" =
      (validationErrorResp "t", 0) ∧
    handlePasswordVerification
        { message := "m", intent := "verify_password", session_id := "s"
          enrollment_no := some "123456", password := some "654321" }
        { url := some "u", key := some "k" } (HttpResult.ok 200 []) "t" =
      searchSupabaseDocuments { url := some "u", key := some "k" }
        (HttpResult.ok 200 []) "123456" "t" ∧
    ({ message := "please verify now", intent := "verify_password"
       session_id := "s", enrollment_no := some "123456"
       password := some "654321" } : ChatRequest).intent =
      "verify_password" := by
  refine ⟨?_, ?_, ?_, ?_, ?_⟩
  · exact (c9_certificate_flow.1
      { message := "I want to find my certificate"
        intent := "certificate_search", session_id := "s"
        enrollment_no := none, password := none }
      (analyzeUserIntent "I want to find my certificate") "t" (by decide)).1
  · exact (c9_certificate_flow.2.1
      { message := "m", intent := "certificate_search", session_id := "s"
        enrollment_no := some "123456", password := none }
      (analyzeUserIntent "m") "t" "123456" (by decide) (by decide)).2.1
  · exact c9_certificate_flow.2.2.1
      { message := "m", intent := "verify_password", session_id := "s"
        enrollment_no := none, password := none }
      { url := some "u", key := some "k" } (HttpResult.ok 200 []) "t"
      (Or.inl (by decide))
  · exact c9_certificate_flow.2.2.2.1
      { message := "m", intent := "verify_password", session_id := "s"
        enrollment_no := some "123456", password := some "654321" }
      { url := some "u", key := some "k" } (HttpResult.ok 200 []) "t"
      (by decide) (by decide)
  · exact (c9_certificate_flow.2.2.2.2
      { message := "please verify now", intent := "verify_password"
        session_id := "s", enrollment_no := some "123456"
        password := some "654321" }
      [] "t"
      { genStub := fun _ => Except.error "x"
        supabase := { url := some "u", key := some "k" }
        net := HttpResult.ok 200 [] }
      (by decide)).1

/-! ### Claims about the Router (C1, C2, C6, C8) -/

/-- A world whose generation stub always raises and whose search service is
unconfigured; used where the remote services are irrelevant. -/
def plainWorld : World :=
  { genStub := fun _ => Except.error "x"
    supabase := { url := none, key := none }
    net := HttpResult.timeout }

/-- The C1 request: explicit intent `certificate_search`, message
classified `job_application`. -/
def c1Req : ChatRequest :=
  { message := "I want a job", intent := "certificate_search"
    session_id := "default", enrollment_no := none, password := none }

/-- C1 counterexample: with explicit intent `certificate_search` but a
message whose classifier intent is `job_application`, the Router returns
the job handler's `job_form` response, not a certificate response — the
explicit intent does not bypass the Intent Classifier (bot.py line 210
tests `user_intent == 'job_application' or
intent_analysis['primary_intent'] == 'job_application'` before the
certificate branch). -/
theorem c1_counterexample :
    (chat c1Req [] "t" plainWorld).resp.type = "job_form" ∧
    ¬ ((chat c1Req [] "t" plainWorld).resp.type = "request_enrollment" ∨
      (chat c1Req [] "t" plainWorld).resp.type = "request_password") := by
  constructor
  · decide
  · decide

/-- C1 (amended): the Router consults the explicit intent and the Intent
Classifier together, in branch order — the job branch fires when either
names `job_application`; otherwise the certificate branch fires when
either names `certificate_search`; otherwise explicit `verify_password`
reaches password verification; every remaining request (unknown explicit
values and explicit `general` included) goes to the Generation Client. -/
theorem c1_dispatch_amended :
    ∀ (req : ChatRequest) (hist : List Turn) (ts : String) (w : World),
    ¬ pyStrip req.message = "" →
    ((req.intent = "job_application" ∨
        (analyzeUserIntent (pyStrip req.message)).primary_intent =
          "job_application") →
      (chat req hist ts w).resp.type = "job_form") ∧
    (¬(req.intent = "job_application" ∨
        (analyzeUserIntent (pyStrip req.message)).primary_intent =
          "job_application") →
      (req.intent = "certificate_search" ∨
        (analyzeUserIntent (pyStrip req.message)).primary_intent =
          "certificate_search") →
      ((chat req hist ts w).resp.type = "request_enrollment" ∨
        (chat req hist ts w).resp.type = "request_password")) ∧
    (¬(req.intent = "job_application" ∨
        (analyzeUserIntent (pyStrip req.message)).primary_intent =
          "job_application") →
      ¬(req.intent = "certificate_search" ∨
        (analyzeUserIntent (pyStrip req.message)).primary_intent =
          "certificate_search") →
      req.intent = "verify_password" →
      (chat req hist ts w).resp.type ∈
        ["error", "service_unavailable", "document_found", "no_document",
         "database_error", "timeout"]) ∧
    (¬(req.intent = "job_application" ∨
        (analyzeUserIntent (pyStrip req.message)).primary_intent =
          "job_application") →
      ¬(req.intent = "certificate_search" ∨
        (analyzeUserIntent (pyStrip req.message)).primary_intent =
          "certificate_search") →
      ¬ req.intent = "verify_password" →
      ((chat req hist ts w).resp.type = "general_response" ∨
        (chat req hist ts w).resp.type = "error") ∧
      1 ≤ (chat req hist ts w).genCalls) := by
  intro req hist ts w hm
  refine ⟨?_, ?_, ?_, ?_⟩
  · intro h1
    rw [chat_resp req hist ts w hm, dispatch_job w ts h1]
    rfl
  · intro h1 h2
    rw [chat_resp req hist ts w hm, dispatch_cert w ts h1 h2]
    exact handleCertificateSearch_type req _ ts
  · intro h1 h2 h3
    rw [chat_resp req hist ts w hm, dispatch_verify w ts h1 h2 h3]
    exact handlePasswordVerification_type_mem req w.supabase w.net ts
  · intro h1 h2 h3
    constructor
    · rw [chat_resp req hist ts w hm, dispatch_gen w ts h1 h2 h3]
      exact (generateAiResponse_type w.genStub ts).1
    · rw [chat_genCalls req hist ts w hm, dispatch_gen w ts h1 h2 h3]
      exact (generateAiResponse_type w.genStub ts).2

/-- C1 witness: `c1_dispatch_amended` at a request whose classifier intent
is `job_application` while the explicit intent says `certificate_search`. -/
theorem c1_witness :
    (chat c1Req [] "u" plainWorld).resp.type = "job_form" :=
  (c1_dispatch_amended c1Req [] "u" plainWorld (by decide)).1
    (Or.inr (by decide))

/-- C2 (confirmed): after any successfully handled message the session
window has length at most 20 and ends with the user turn (the handled,
stripped message) followed by the assistant turn (the returned response);
the router's pairwise append-and-trim equals two single-turn
sliding-window appends; and appending 25 turns through the window to an
empty session keeps exactly the last 20 in order (the oldest 5 evicted
first). -/
theorem c2_history_window :
    (∀ (req : ChatRequest) (hist : List Turn) (ts : String) (w : World),
      ¬ pyStrip req.message = "" →
      (chat req hist ts w).hist.length ≤ 20 ∧
      lastN 2 (chat req hist ts w).hist =
        [Turn.mk (pyStrip req.message) true ts,
         Turn.mk (chat req hist ts w).resp.response false
           (chat req hist ts w).resp.timestamp]) ∧
    (∀ (h : List Turn) (u a : Turn),
      histTrim (h ++ [u, a]) = storeAppend (storeAppend h u) a) ∧
    (∀ l : List Turn, l.length = 25 →
      List.foldl storeAppend [] l = l.drop 5) := by
  refine ⟨?_, histTrim_pair_eq_storeAppend, ?_⟩
  · intro req hist ts w hm
    rw [chat_hist req hist ts w hm]
    constructor
    · rw [histTrim_eq_lastN]
      exact lastN_length_le 20 _
    · rw [histTrim_eq_lastN, lastN_lastN (by omega)]
      exact lastN_full_suffix hist _
  · intro l hl
    rw [foldl_storeAppend_eq l [] (by simp)]
    unfold lastN
    rw [List.nil_append, hl]

/-- The C2 request: a plain general message. -/
def c2Req : ChatRequest :=
  { message := "hi there", intent := ""
    session_id := "default", enrollment_no := none, password := none }

/-- The 25 turns used to instantiate the C2 window theorem. -/
def c2Turns : List Turn :=
  (List.range 25).map (fun i => Turn.mk (Nat.repr i) true "t")

/-- C2 witness: `c2_history_window` at a concrete request and at a
concrete 25-turn stream. -/
theorem c2_witness :
    ((chat c2Req [] "t" plainWorld).hist.length ≤ 20 ∧
      lastN 2 (chat c2Req [] "t" plainWorld).hist =
        [Turn.mk (pyStrip c2Req.message) true "t",
         Turn.mk (chat c2Req [] "t" plainWorld).resp.response false
           (chat c2Req [] "t" plainWorld).resp.timestamp]) ∧
    histTrim (([] : List Turn) ++
        [Turn.mk "a" true "t", Turn.mk "b" false "t"]) =
      storeAppend (storeAppend [] (Turn.mk "a" true "t"))
        (Turn.mk "b" false "t") ∧
    List.foldl storeAppend [] c2Turns = c2Turns.drop 5 := by
  refine ⟨?_, ?_, ?_⟩
  · exact c2_history_window.1 c2Req [] "t" plainWorld (by decide)
  · exact c2_history_window.2.1 [] (Turn.mk "a" true "t")
      (Turn.mk "b" false "t")
  · exact c2_history_window.2.2 c2Turns (by decide)

/-- The stubbed world used by the C6 greeting counterexample and witness. -/
def c6World : World :=
  { genStub := fun _ => Except.ok
      { text := some "Hello! How can I help you with AmLI services today?"
        candidateText := none }
    supabase := { url := none, key := none }
    net := HttpResult.timeout }

/-- The C6 request: the greeting "hello" with no explicit intent. -/
def c6Req : ChatRequest :=
  { message := "hello", intent := ""
    session_id := "default", enrollment_no := none, password := none }

/-- C6 counterexample: the message "hello" with no explicit intent is
routed to the Generation Client (a generation call is made) and comes
back typed `general_response` — there is no `greeting` type and no
greeting short-circuit in bot.py. -/
theorem c6_counterexample :
    (chat c6Req [] "t" c6World).resp.type = "general_response" ∧
    (chat c6Req [] "t" c6World).genCalls = 1 ∧
    ¬ ((chat c6Req [] "t" c6World).resp.type = "greeting" ∧
      (chat c6Req [] "t" c6World).genCalls = 0) := by
  refine ⟨by decide, by decide, by decide⟩

/-- C6 (amended): greeting messages ("hello", "hi", "hey") with no
explicit intent classify as `general` and are handed to the Generation
Client — at least one generation attempt is made, the response type is
`general_response` or `error`, and it is never `greeting` (no such type
exists in the code). -/
theorem c6_greeting_amended :
    ∀ (req : ChatRequest) (hist : List Turn) (ts : String) (w : World),
    req.intent = "" →
    (req.message = "hello" ∨ req.message = "hi" ∨ req.message = "hey") →
    ((chat req hist ts w).resp.type = "general_response" ∨
      (chat req hist ts w).resp.type = "error") ∧
    1 ≤ (chat req hist ts w).genCalls ∧
    (chat req hist ts w).resp.type ≠ "greeting" := by
  intro req hist ts w hi hm
  have hprim : (analyzeUserIntent (pyStrip req.message)).primary_intent =
      "general" := by
    rcases hm with h | h | h <;> rw [h] <;> decide
  have hne : ¬ pyStrip req.message = "" := by
    rcases hm with h | h | h <;> rw [h] <;> decide
  have h1 : ¬(req.intent = "job_application" ∨
      (analyzeUserIntent (pyStrip req.message)).primary_intent =
        "job_application") := by
    rw [hi, hprim]; simp
  have h2 : ¬(req.intent = "certificate_search" ∨
      (analyzeUserIntent (pyStrip req.message)).primary_intent =
        "certificate_search") := by
    rw [hi, hprim]; simp
  have h3 : ¬ req.intent = "verify_password" := by
    rw [hi]; simp
  refine ⟨?_, ?_, ?_⟩
  · rw [chat_resp req hist ts w hne, dispatch_gen w ts h1 h2 h3]
    exact (generateAiResponse_type w.genStub ts).1
  · rw [chat_genCalls req hist ts w hne, dispatch_gen w ts h1 h2 h3]
    exact (generateAiResponse_type w.genStub ts).2
  · rw [chat_resp req hist ts w hne, dispatch_gen w ts h1 h2 h3]
    rcases (generateAiResponse_type w.genStub ts).1 with h | h <;>
      rw [h] <;> decide

/-- The request of the C6 witness: the greeting "hi". -/
def c6ReqHi : ChatRequest :=
  { message := "hi", intent := ""
    session_id := "default", enrollment_no := none, password := none }

/-- C6 witness: `c6_greeting_amended` at the message "hi". -/
theorem c6_witness :
    ((chat c6ReqHi [] "t" c6World).resp.type = "general_response" ∨
      (chat c6ReqHi [] "t" c6World).resp.type = "error") ∧
    1 ≤ (chat c6ReqHi [] "t" c6World).genCalls ∧
    (chat c6ReqHi [] "t" c6World).resp.type ≠ "greeting" :=
  c6_greeting_amended c6ReqHi [] "t" c6World rfl (Or.inr (Or.inl rfl))

/-- The C8 request: an empty message with a non-empty explicit intent. -/
def c8Req : ChatRequest :=
  { message := "", intent := "job_application"
    session_id := "default", enrollment_no := none, password := none }

/-- The request of the C8 witness: a whitespace-only message (stripped to
empty) with a non-empty explicit intent. -/
def c8ReqWs : ChatRequest :=
  { message := "   ", intent := "job_application"
    session_id := "default", enrollment_no := none, password := none }

/-- C8 counterexample: a request with an empty message but a non-empty
explicit intent is still rejected (bot.py line 189 tests only
`if not user_message`), refuting "rejects if and only if both are
empty". -/
theorem c8_counterexample :
    (chat c8Req [] "t" plainWorld).rejected = true ∧
    ¬ (c8Req.message = "" ∧ c8Req.intent = "") := by
  constructor
  · decide
  · decide

/-- C8 (amended): the Router rejects a request exactly when the stripped
message is empty, regardless of the explicit intent; on rejection it has
no side effect — the session history is unchanged, no remote service is
touched, and the 400 body carries only the error string. -/
theorem c8_reject_amended :
    ∀ (req : ChatRequest) (hist : List Turn) (ts : String) (w : World),
    ((chat req hist ts w).rejected = true ↔ pyStrip req.message = "") ∧
    (pyStrip req.message = "" →
      (chat req hist ts w).hist = hist ∧
      (chat req hist ts w).resp.error = some "Please enter a message" ∧
      (chat req hist ts w).genCalls = 0 ∧
      (chat req hist ts w).searchCalls = 0) := by
  intro req hist ts w
  by_cases hm : pyStrip req.message = ""
  · rw [chat_eq_of_empty req hist ts w hm]
    simp [hm]
  · constructor
    · rw [chat_not_rejected req hist ts w hm]
      simp [hm]
    · intro h
      exact absurd h hm

/-- C8 witness: `c8_reject_amended` at a whitespace-only message with a
non-empty explicit intent. -/
theorem c8_witness :
    (chat c8ReqWs [] "t" plainWorld).hist = [] ∧
    (chat c8ReqWs [] "t" plainWorld).resp.error =
      some "Please enter a message" ∧
    (chat c8ReqWs [] "t" plainWorld).genCalls = 0 ∧
    (chat c8ReqWs [] "t" plainWorld).searchCalls = 0 :=
  (c8_reject_amended c8ReqWs [] "t" plainWorld).2 (by decide)

end AmLI

